import Mathlib

/-!
Verification development for the `monitor-shtc3` example of the shtcx-rs
repository (`src/examples/monitor-shtc3.rs`).

The program is a concurrent sampling/display pipeline: a producer task
(`poll`) reads an SHTC3 sensor twice per cycle (normal mode and low-power
mode) and publishes the measurement pair on an unbounded FIFO channel; a
consumer task (`show`) wakes every 25 ms, receives from the channel,
pushes the four derived scalar values into four bounded deques (`Data`),
truncates them to capacity, and renders; a Ctrl-C watcher completes the
`futures_micro::or!` race, after which the terminal is cleared and the
cursor restored.

We embed the pipeline shallowly: the deques become Lean lists with the
newest element at the head (matching `VecDeque::push_front` /
`VecDeque::truncate`), the channel becomes a FIFO list, and the
interleaving of producer cycles and consumer ticks becomes a list of
events folded over a system state.
-/

namespace Monitor

/-- `DATA_CAPACITY` constant from line 20 of the source: the bound on each
data series. -/
def DATA_CAPACITY : Nat := 100

/-- A sensor driver error (the error type of `shtcx::measure`; the driver
itself is an external collaborator, only the success/failure shape
matters to the pipeline). -/
inductive DriverError
  | i2c
  deriving DecidableEq, Repr

/-- One sensor reading, embedding `shtcx::Measurement` as consumed by the
example: `temperature.as_millidegrees_celsius()` and
`humidity.as_millipercent()` are the two fixed-point `i32` scalars the
pipeline extracts (lines 64-71). -/
structure Measurement where
  temperature : Int
  humidity : Int
  deriving DecidableEq, Repr

/-- A Sample Pair: one producer cycle's `(normal, lowpwr)` measurements
(line 56: `Receiver<(Measurement, Measurement)>`). -/
abbrev Pair := Measurement × Measurement

/-- The `Data` struct (lines 99-106): four data series, each a deque of
fixed-point `i32` values. A Lean list with the NEWEST element at the
head embeds the `VecDeque` as used here: `push_front` is `List.cons`,
`iter()` walks front (newest) to back (oldest). -/
structure Data where
  capacity : Nat
  temp_normal : List Int
  temp_lowpwr : List Int
  humi_normal : List Int
  humi_lowpwr : List Int
  deriving DecidableEq, Repr

namespace Data

/-- `Data::new(capacity)` (lines 109-114): empty series. -/
def new (capacity : Nat) : Data :=
  ⟨capacity, [], [], [], []⟩

/-- `Data::truncate` (lines 117-122): truncate every series to at most
`capacity` datapoints; `VecDeque::truncate` keeps the first (newest)
`capacity` elements, i.e. `List.take`. -/
def truncate (d : Data) : Data :=
  { d with
    temp_normal := d.temp_normal.take d.capacity
    temp_lowpwr := d.temp_lowpwr.take d.capacity
    humi_normal := d.humi_normal.take d.capacity
    humi_lowpwr := d.humi_lowpwr.take d.capacity }

end Data

/-- Body of the drain `for` loop in `show` (lines 63-72): one received
pair `(normal, lowpwr)` pushes its four derived scalars onto the front
of the four series. -/
def drainBody (d : Data) (p : Pair) : Data :=
  { d with
    temp_normal := p.1.temperature :: d.temp_normal
    temp_lowpwr := p.2.temperature :: d.temp_lowpwr
    humi_normal := p.1.humidity :: d.humi_normal
    humi_lowpwr := p.2.humidity :: d.humi_lowpwr }

/-- One tick of the `show` loop body (lines 61-78) acting on the channel
contents and the `Data`.

The drain is `for (normal, lowpwr) in receiver.try_recv()`: in Rust,
iterating a `Result` yields its `Ok` value at most ONCE, so one tick
receives at most one pair — the head of the FIFO queue when nonempty —
then `data.truncate()` runs and the frame is rendered (rendering does
not mutate `Data`). Returns the remaining queue and the new `Data`. -/
def showTick (q : List Pair) (d : Data) : List Pair × Data :=
  match q with
  | [] => ([], d.truncate)
  | p :: rest => (rest, (drainBody d p).truncate)

/-- The drain behaviour the specification describes for the consumer
tick: exhaust the whole queue before truncating and rendering
("drain every Sample Pair currently waiting in the channel"). Stated
from the spec's words, to be compared against `showTick`. -/
def showTickSpecDrainAll (q : List Pair) (d : Data) : List Pair × Data :=
  ([], (q.foldl drainBody d).truncate)

/-- One producer-cycle publish attempt, lines 89-93.  `r1` and `r2` are
the results of the two `sht.measure` calls (normal mode, then low
power).  Both calls are `.unwrap()`ed: if either read fails the cycle
aborts by panicking and nothing is sent; only when both succeed is the
pair `(normal, lowpwr)` published.  Returns the list of pairs this
cycle appends to the channel. -/
def pollCycle (r1 r2 : Except DriverError Measurement) : List Pair :=
  match r1, r2 with
  | .ok a, .ok b => [(a, b)]
  | _, _ => []

/-- An event of the interleaved pipeline: one full producer cycle (with
the two driver read results it happened to get) or one consumer tick.
Any interleaving of producer and consumer timing is a list of events. -/
inductive Event
  | produce (r1 r2 : Except DriverError Measurement)
  | consume

/-- Pipeline state: the FIFO channel contents, the ghost histories of all
successfully published and all drained pairs in order, the consumer's
`Data`, and whether a driver read failure has aborted the pipeline
(an `.unwrap()` panic unwinds through `or!` and `block_on`, stopping
every task). -/
structure SysState where
  queue : List Pair
  published : List Pair
  drained : List Pair
  data : Data
  aborted : Bool
  deriving DecidableEq, Repr

/-- Initial pipeline state (lines 43, 59): empty unbounded channel,
`Data::new(DATA_CAPACITY)`. -/
def initState : SysState :=
  ⟨[], [], [], Data.new DATA_CAPACITY, false⟩

/-- One step of the interleaved pipeline.  A successful producer cycle
appends its pair to the FIFO channel (`sender.send` on an unbounded
channel); a cycle whose read failed panics, aborting the whole
pipeline (no partial publish).  A consumer tick is `showTick`: it
receives at most one pair, truncates, renders.  After an abort no task
runs again. -/
def sysStep (s : SysState) (e : Event) : SysState :=
  if s.aborted then s
  else
    match e with
    | .produce (.ok a) (.ok b) =>
        { s with
          queue := s.queue ++ [(a, b)]
          published := s.published ++ [(a, b)] }
    | .produce _ _ => { s with aborted := true }
    | .consume =>
        match s.queue with
        | [] => { s with data := s.data.truncate }
        | p :: rest =>
            { s with
              queue := rest
              drained := s.drained ++ [p]
              data := (drainBody s.data p).truncate }

/-- Run the pipeline over a whole interleaving. -/
def runSys (es : List Event) : SysState :=
  es.foldl sysStep initState

/-- One ring-buffer push as realised by the source for a single series:
`VecDeque::push_front` (cons at the head, line 64) composed with the
per-tick `truncate` to `cap` (line 118). -/
def rbPush (cap : Nat) (buf : List Int) (v : Int) : List Int :=
  (v :: buf).take cap

/-- A whole sequence of pushes into one series, oldest first. -/
def rbPushSeq (cap : Nat) (buf : List Int) (vs : List Int) : List Int :=
  vs.foldl (rbPush cap) buf

/-! ### Publish onto the channel (line 93) -/

/-- Error returned by `Sender::send` when the channel is closed. -/
inductive SendError
  | closed
  deriving DecidableEq, Repr

/-- `sender.send(pair).await` on the unbounded channel: if the channel is
closed the pair is not delivered and the send returns an error;
otherwise the pair is appended at the FIFO tail. -/
def channelSend (closed : Bool) (q : List Pair) (p : Pair) :
    List Pair × Except SendError Unit :=
  if closed then (q, .error .closed) else (q ++ [p], .ok ())

/-- Line 93 of `poll`: `let _ = sender.send((normal, lowpwr)).await;`.
The send result is bound to `_` and discarded.  Returns the channel
contents afterwards and whether a fatal error was surfaced from the
publish (`true` would mean the loop stops or propagates the error; the
code discards the result, so this is always `false` and the loop
continues to its sleep and next cycle). -/
def pollPublish (closed : Bool) (q : List Pair) (p : Pair) :
    List Pair × Bool :=
  ((channelSend closed q p).1, false)

/-! ### Supervisor race, shutdown and exit (lines 23-53)

`main` races `ctrl_c`, `poll(sender)` and `show(receiver, terminal)` with
`futures_micro::or!` (line 47).  `poll` and `show` are infinite loops, so
the only way a branch RETURNS is the Ctrl-C watcher; a sensor read,
channel setup, or terminal draw failure hits an `.unwrap()` and panics
instead.  These completion modes and their consequences follow. -/

/-- How the three-way race of line 47 ends: the watcher branch returns
(Ctrl-C), or an `.unwrap()` in the producer (`poll`, lines 83-90) or
the consumer (`render`, line 224) panics out of the race. -/
inductive Completion
  | watcher
  | producerAbort
  | consumerAbort
  deriving DecidableEq, Repr

/-- What happens between the end of the race and process exit.
`othersCancelled`: the two not-yet-finished branch futures are dropped
(they are owned by the `or!` future, which is dropped both on normal
completion and during panic unwinding), so neither runs again.
`restoredTerminal`: lines 50-51 (`terminal.clear()`,
`terminal.show_cursor()`) executed.
`abortedWithError`: the process is terminating by panic. -/
structure ShutdownResult where
  othersCancelled : Bool
  restoredTerminal : Bool
  abortedWithError : Bool
  deriving DecidableEq, Repr

/-- Shutdown behaviour of `main` (lines 47-52) per completion mode.  On
the watcher path `or!` returns, the dropped `or!` future cancels the
two loops, and lines 50-51 run before `block_on` returns.  On a panic
path the unwind drops the `or!` future (cancelling the loops) but
skips the rest of the async block, so lines 50-51 never run. -/
def supervisorShutdown : Completion → ShutdownResult
  | .watcher => ⟨true, true, false⟩
  | .producerAbort => ⟨true, false, true⟩
  | .consumerAbort => ⟨true, false, true⟩

/-- Process exit status.  `main` returns `()` normally on the watcher
path (exit status 0 = success); an unwinding panic terminates the
process with a nonzero status. -/
inductive ExitStatus
  | success
  | failure
  deriving DecidableEq, Repr

/-- The exit status of the process for each way the race can end. -/
def processExit (c : Completion) : ExitStatus :=
  if (supervisorShutdown c).abortedWithError then .failure else .success

/-! ### Terminal cleanup (lines 49-51) -/

/-- A terminal I/O error from `clear` or `show_cursor`. -/
inductive TermError
  | io
  deriving DecidableEq, Repr

/-- The two cleanup operations attempted at lines 50-51. -/
inductive TermOp
  | clear
  | showCursor
  deriving DecidableEq, Repr

/-- The cleanup epilogue of `main` (lines 49-51), with the outcome of the
two terminal calls supplied as oracles (`r1` for `terminal.clear()`,
`r2` for `terminal.show_cursor()`).  Both calls are `let _ =`: each
result is discarded, so the second op is attempted regardless of the
first failing, and no error escapes.  Returns the ordered list of
operations attempted and the error escalated out of the epilogue
(`none`: every failure is swallowed and the block falls through to
exit). -/
def cleanupEpilogue (r1 r2 : Except TermError Unit) :
    List TermOp × Option TermError :=
  let attempt1 := [TermOp.clear]
  let attempt2 := attempt1 ++ [TermOp.showCursor]
  (attempt2, none)

/-! ### Rendering (lines 167-225) -/

/-- The dataset built for one series at lines 177-182 (and identically
for the other three): `iter()` walks the deque newest-first,
`.rev()` makes it oldest-first, `.enumerate()` attaches the index, and
each fixed-point value is divided by the scale 1000 at this boundary.
Values are embedded in `ℚ` so that division by 1000 is exact. -/
def plotSeries (buf : List Int) : List (ℚ × ℚ) :=
  buf.reverse.enum.map (fun p => ((p.1 : ℚ), (p.2 : ℚ) / 1000))

/-- The four plotted datasets of one `render` call, in source order
(lines 175-202): temperature normal, temperature low-power, humidity
normal, humidity low-power. -/
def renderDatasets (d : Data) :
    List (ℚ × ℚ) × List (ℚ × ℚ) × List (ℚ × ℚ) × List (ℚ × ℚ) :=
  (plotSeries d.temp_normal, plotSeries d.temp_lowpwr,
   plotSeries d.humi_normal, plotSeries d.humi_lowpwr)

/-- The render transform the specification describes, stated from its
words: take the buffer snapshot (newest-first), reverse it to
oldest-first, and map it to `(index, value / 1000)` pairs.  To be
compared against `plotSeries`. -/
def specPlot (snapshot : List Int) : List (ℚ × ℚ) :=
  (snapshot.reverse.enum).map (fun p => ((p.1 : ℚ), (p.2 : ℚ) / 1000))

/-! ### Concrete sample data used in scenario runs -/

/-- A concrete measurement: 21.337 °C, 44.559 %RH. -/
def mA : Measurement := ⟨21337, 44559⟩

/-- A concrete measurement: 21.25 °C, 44.8 %RH. -/
def mB : Measurement := ⟨21250, 44800⟩

/-- A concrete measurement: 21.4 °C, 44.1 %RH. -/
def mC : Measurement := ⟨21400, 44100⟩

/-- A concrete measurement: 21.3 °C, 44.5 %RH. -/
def mD : Measurement := ⟨21300, 44500⟩

/-- An interleaving in which two producer cycles complete before the
first consumer tick, so two pairs are waiting in the channel when the
tick fires. -/
def c1Events : List Event :=
  [.produce (.ok mA) (.ok mB), .produce (.ok mC) (.ok mD), .consume]

/-- The spec's timing scenario as an interleaving: the producer emits at
t=0 ms and t=50 ms, the consumer ticks every 25 ms (at t=0, 25, 50);
we observe the state after the t=50 tick, i.e. at t=60 ms. -/
def scenarioT60 (p1 p2 : Pair) : List Event :=
  [.produce (.ok p1.1) (.ok p1.2), .consume, .consume,
   .produce (.ok p2.1) (.ok p2.2), .consume]

/-- The interleaving used to witness that buffer contents are raw
published fixed-point integers: one successful cycle, one tick. -/
def c8Events : List Event :=
  [.produce (.ok mA) (.ok mB), .consume]

/-! ## Invariant of the interleaved pipeline -/

/-- The pipeline invariant: the data capacity is the configured constant;
the drained history followed by the pending queue is exactly the
publish history (FIFO); and each series is the newest-capped window of
the corresponding projection of the drained history, newest first. -/
def Inv (s : SysState) : Prop :=
  s.data.capacity = DATA_CAPACITY ∧
  s.drained ++ s.queue = s.published ∧
  s.data.temp_normal =
    ((s.drained.map fun p => p.1.temperature).reverse).take DATA_CAPACITY ∧
  s.data.temp_lowpwr =
    ((s.drained.map fun p => p.2.temperature).reverse).take DATA_CAPACITY ∧
  s.data.humi_normal =
    ((s.drained.map fun p => p.1.humidity).reverse).take DATA_CAPACITY ∧
  s.data.humi_lowpwr =
    ((s.drained.map fun p => p.2.humidity).reverse).take DATA_CAPACITY

theorem take_cons_take {α : Type _} (cap : Nat) (x : α) (l : List α) :
    (x :: l.take cap).take cap = (x :: l).take cap := by
  cases cap with
  | zero => simp
  | succ k =>
      simp [List.take_succ_cons, List.take_take, Nat.min_eq_left (Nat.le_succ k)]

theorem take_append_take {α : Type _} (cap : Nat) (l m : List α) :
    (l ++ m.take cap).take cap = (l ++ m).take cap := by
  simp [List.take_append_eq_append_take, List.take_take,
    Nat.min_eq_left (Nat.sub_le cap l.length)]

theorem inv_init : Inv initState :=
  ⟨rfl, rfl, rfl, rfl, rfl, rfl⟩

theorem inv_step (s : SysState) (e : Event) (h : Inv s) : Inv (sysStep s e) := by
  obtain ⟨hc, hq, h1, h2, h3, h4⟩ := h
  cases hs : s.aborted with
  | true => simpa [sysStep, hs] using ⟨hc, hq, h1, h2, h3, h4⟩
  | false =>
    cases e with
    | produce r1 r2 =>
      cases r1 with
      | error e1 => simpa [sysStep, hs] using ⟨hc, hq, h1, h2, h3, h4⟩
      | ok a =>
        cases r2 with
        | error e2 => simpa [sysStep, hs] using ⟨hc, hq, h1, h2, h3, h4⟩
        | ok b =>
          refine ⟨?_, ?_, ?_, ?_, ?_, ?_⟩
          · simpa [sysStep, hs] using hc
          · simp [sysStep, hs]
            rw [← List.append_assoc, hq]
          · simpa [sysStep, hs] using h1
          · simpa [sysStep, hs] using h2
          · simpa [sysStep, hs] using h3
          · simpa [sysStep, hs] using h4
    | consume =>
      cases hqueue : s.queue with
      | nil =>
        refine ⟨?_, ?_, ?_, ?_, ?_, ?_⟩ <;>
          simp [sysStep, hs, hqueue, Data.truncate, hc, h1, h2, h3, h4,
            List.take_take] <;>
          simp [hqueue] at hq <;> exact hq
      | cons p rest =>
        refine ⟨?_, ?_, ?_, ?_, ?_, ?_⟩
        · simp [sysStep, hs, hqueue, Data.truncate, drainBody, hc]
        · simp [sysStep, hs, hqueue]
          rw [← hqueue]
          exact hq
        · simp [sysStep, hs, hqueue, Data.truncate, drainBody, hc, h1]
          rw [take_cons_take]
        · simp [sysStep, hs, hqueue, Data.truncate, drainBody, hc, h2]
          rw [take_cons_take]
        · simp [sysStep, hs, hqueue, Data.truncate, drainBody, hc, h3]
          rw [take_cons_take]
        · simp [sysStep, hs, hqueue, Data.truncate, drainBody, hc, h4]
          rw [take_cons_take]

theorem inv_runAux : ∀ (es : List Event) (s : SysState), Inv s →
    Inv (es.foldl sysStep s)
  | [], _, h => h
  | e :: es, s, h => inv_runAux es (sysStep s e) (inv_step s e h)

theorem inv_run (es : List Event) : Inv (runSys es) :=
  inv_runAux es initState inv_init

theorem sysStep_abort_stable (s : SysState) (e : Event) (h : s.aborted = true) :
    sysStep s e = s := by
  simp [sysStep, h]

theorem foldl_abort_stable : ∀ (es : List Event) (s : SysState),
    s.aborted = true → es.foldl sysStep s = s
  | [], _, _ => rfl
  | e :: es, s, h => by
      rw [List.foldl_cons, sysStep_abort_stable s e h]
      exact foldl_abort_stable es s h

theorem sysStep_failed_cycle (s : SysState) (a : Measurement) (e : DriverError) :
    sysStep s (.produce (.ok a) (.error e)) = { s with aborted := true } := by
  cases s with
  | mk q pub dr d ab => cases ab <;> simp [sysStep]

/-! ## Ring-buffer push lemmas -/

theorem rbPushSeq_take (cap : Nat) : ∀ (vs : List Int) (b : List Int),
    rbPushSeq cap (b.take cap) vs = (vs.reverse ++ b).take cap
  | [], b => by simp [rbPushSeq]
  | v :: vs, b => by
      have h1 : rbPush cap (b.take cap) v = (v :: b).take cap :=
        take_cons_take cap v b
      calc rbPushSeq cap (b.take cap) (v :: vs)
          = rbPushSeq cap ((v :: b).take cap) vs := by
            simp [rbPushSeq, List.foldl_cons, h1]
        _ = (vs.reverse ++ (v :: b)).take cap := rbPushSeq_take cap vs (v :: b)
        _ = ((v :: vs).reverse ++ b).take cap := by
            simp [List.reverse_cons, List.append_assoc]

theorem rbPushSeq_nil_eq (cap : Nat) (vs : List Int) :
    rbPushSeq cap [] vs = vs.reverse.take cap := by
  have h := rbPushSeq_take cap vs []
  simpa using h

/-! ## Claim theorems -/

/-- C1, counterexample: the consumer tick does NOT drain every Sample
Pair waiting in the channel.  In the run `c1Events` two pairs are
waiting when the tick fires, yet after the tick one pair is still
queued and each series holds a single value; and on that queue the
source's tick differs from the drain-all tick the spec describes.
The `for` over `receiver.try_recv()` iterates a `Result`, so its body
runs at most once per tick. -/
theorem show_drains_all_counterexample :
    (runSys c1Events).queue = [(mC, mD)] ∧
    (runSys c1Events).data.temp_normal.length = 1 ∧
    ¬ (showTick [(mA, mB), (mC, mD)] (Data.new DATA_CAPACITY) =
        showTickSpecDrainAll [(mA, mB), (mC, mD)] (Data.new DATA_CAPACITY)) := by
  decide

/-- C1, amended: each consumer tick drains at most one pair — exactly
the head of the FIFO queue when one is waiting — and in the spec's
timing scenario (emissions at t=0 and t=50 ms, render ticks every
25 ms) the successive ticks have drained both pairs by t=60 ms, so
each series buffer has length 2. -/
theorem show_single_drain_per_tick (q pub dr : List Pair) (d : Data)
    (p1 p2 : Pair) :
    (sysStep ⟨q, pub, dr, d, false⟩ .consume).queue = q.tail ∧
    (runSys (scenarioT60 p1 p2)).queue = [] ∧
    (runSys (scenarioT60 p1 p2)).data.temp_normal.length = 2 ∧
    (runSys (scenarioT60 p1 p2)).data.temp_lowpwr.length = 2 ∧
    (runSys (scenarioT60 p1 p2)).data.humi_normal.length = 2 ∧
    (runSys (scenarioT60 p1 p2)).data.humi_lowpwr.length = 2 := by
  refine ⟨?_, rfl, rfl, rfl, rfl, rfl⟩
  cases q <;> simp [sysStep]

/-- C2: for every sequence of pushes into a ring-buffer series of
capacity `cap`, the length after any push is at most `cap`; once at
least `cap` values have been pushed the buffer is exactly the `cap`
most recently pushed values, newest at the head; the concrete
`C=3`, `[10,20,30,40]` scenario yields `[40,30,20]`; and the per-value
push is exactly what one drained pair does to a series in `show`
(`push_front` then `truncate`). -/
theorem ring_buffer_bounded_window (cap : Nat) (vs : List Int) :
    (∀ k, (rbPushSeq cap [] (vs.take k)).length ≤ cap) ∧
    (cap ≤ vs.length →
      rbPushSeq cap [] vs = vs.reverse.take cap ∧
      (rbPushSeq cap [] vs).length = cap) ∧
    rbPushSeq 3 [] [10, 20, 30, 40] = [40, 30, 20] ∧
    (∀ (d : Data) (p : Pair),
      ((drainBody d p).truncate).temp_normal =
        rbPush d.capacity d.temp_normal p.1.temperature) := by
  refine ⟨?_, ?_, by decide, fun d p => rfl⟩
  · intro k
    rw [rbPushSeq_nil_eq]
    simp [List.length_take]
  · intro h
    refine ⟨rbPushSeq_nil_eq cap vs, ?_⟩
    rw [rbPushSeq_nil_eq]
    simp [List.length_take]
    omega

/-- C2, witness: the concrete scenario instantiates the `cap ≤ N`
window clause at `C = 3`, `N = 4`. -/
theorem ring_buffer_bounded_window_witness :
    rbPushSeq 3 [] [10, 20, 30, 40] = [10, 20, 30, 40].reverse.take 3 ∧
    (rbPushSeq 3 [] [10, 20, 30, 40]).length = 3 :=
  (ring_buffer_bounded_window 3 [10, 20, 30, 40]).2.1 (by decide)

/-- C3: a producer cycle whose second read fails publishes nothing —
`pollCycle` yields no pair — and the whole pipeline run containing
that cycle leaves the channel, the publish history, the drain history
and every Ring Buffer exactly as they were before the cycle, no
matter what events follow: no value derived from the first
(successful) read is ever sent or buffered. -/
theorem cycle_atomicity (es : List Event) (a : Measurement)
    (e : DriverError) (es' : List Event) :
    pollCycle (.ok a) (.error e) = [] ∧
    runSys (es ++ .produce (.ok a) (.error e) :: es') =
      { runSys es with aborted := true } ∧
    (runSys (es ++ .produce (.ok a) (.error e) :: es')).published =
      (runSys es).published ∧
    (runSys (es ++ .produce (.ok a) (.error e) :: es')).data =
      (runSys es).data := by
  have hrun : runSys (es ++ .produce (.ok a) (.error e) :: es') =
      { runSys es with aborted := true } := by
    rw [runSys, List.foldl_append, List.foldl_cons]
    rw [show es.foldl sysStep initState = runSys es from rfl]
    rw [sysStep_failed_cycle]
    exact foldl_abort_stable es' _ rfl
  exact ⟨rfl, hrun, by rw [hrun], by rw [hrun]⟩

/-- C4, counterexample: publishing on a closed channel fails — the send
returns an error and the pair is not delivered — yet line 93 discards
the result (`let _ =`), so the error is never surfaced as fatal,
refuting the claim that a publish error triggers shutdown. -/
theorem publish_error_fatal_counterexample :
    (channelSend true [] (mA, mB)).2 = .error .closed ∧
    (pollPublish true [] (mA, mB)).1 = [] ∧
    ¬ ((pollPublish true [] (mA, mB)).2 = true) :=
  ⟨rfl, rfl, by decide⟩

/-- C4, amended: the producer's publish never surfaces an error: on a
closed channel the pair is dropped and the loop simply continues; on
an open channel the pair is enqueued.  Publish errors are silently
ignored, not fatal. -/
theorem publish_error_ignored (closed : Bool) (q : List Pair) (p : Pair) :
    (pollPublish closed q p).2 = false ∧
    pollPublish true q p = (q, false) ∧
    pollPublish false q p = (q ++ [p], false) := by
  cases closed <;> exact ⟨rfl, rfl, rfl⟩

/-- C5: FIFO preservation through the channel into the buffers, for
every interleaving of producer and consumer events: the drained
history followed by the still-queued pairs is exactly the publish
history (so pairs are drained in publish order), and each Ring Buffer
is the capacity-capped newest-first window of its projection of the
drained history (so buffered values appear in exactly the relative
order they were published). -/
theorem fifo_preservation (es : List Event) :
    (runSys es).drained ++ (runSys es).queue = (runSys es).published ∧
    (runSys es).data.temp_normal =
      (((runSys es).drained.map fun p => p.1.temperature).reverse).take
        DATA_CAPACITY ∧
    (runSys es).data.temp_lowpwr =
      (((runSys es).drained.map fun p => p.2.temperature).reverse).take
        DATA_CAPACITY ∧
    (runSys es).data.humi_normal =
      (((runSys es).drained.map fun p => p.1.humidity).reverse).take
        DATA_CAPACITY ∧
    (runSys es).data.humi_lowpwr =
      (((runSys es).drained.map fun p => p.2.humidity).reverse).take
        DATA_CAPACITY := by
  obtain ⟨hc, hq, h1, h2, h3, h4⟩ := inv_run es
  exact ⟨hq, h1, h2, h3, h4⟩

/-- C6, counterexample: on a fatal producer error the race ends by
panic: the other tasks are indeed cancelled, but the terminal
restoration of lines 50-51 is skipped by the unwind, refuting the
claim that external resource state is restored on every completion
path. -/
theorem supervisor_restore_counterexample :
    ¬ ((supervisorShutdown .producerAbort).othersCancelled = true ∧
       (supervisorShutdown .producerAbort).restoredTerminal = true) := by
  decide

/-- C6, amended: whichever task ends the race, the other two are
cancelled and never run orphaned; but the explicit terminal
restoration runs only on the clean Watcher completion — on either
fatal-error completion the panic unwind skips it. -/
theorem supervisor_cancel_and_restore :
    (supervisorShutdown Completion.watcher).othersCancelled = true ∧
    (supervisorShutdown Completion.producerAbort).othersCancelled = true ∧
    (supervisorShutdown Completion.consumerAbort).othersCancelled = true ∧
    (supervisorShutdown Completion.watcher).restoredTerminal = true ∧
    (supervisorShutdown Completion.producerAbort).restoredTerminal = false ∧
    (supervisorShutdown Completion.consumerAbort).restoredTerminal = false := by
  decide

/-- C7: the completion mode determines the process exit status: a clean
Cancellation Watcher completion exits with success, and either
errored completion (producer or consumer abort) exits with a
failure (non-zero-equivalent) status. -/
theorem exit_status_determined :
    processExit Completion.watcher = ExitStatus.success ∧
    processExit Completion.producerAbort = ExitStatus.failure ∧
    processExit Completion.consumerAbort = ExitStatus.failure := by
  decide

/-- C8: every render plots, for each of the four series, exactly the
buffer snapshot reversed from newest-first to oldest-first and mapped
to `(index, value / 1000)` pairs — `renderDatasets` coincides with
the spec's transform on all four buffers — and internally the buffers
hold raw fixed-point integers: every value in a buffer is the
unscaled field of some published pair, with the division by 1000
applied only inside the render transform. -/
theorem render_scaling_at_boundary (d : Data) (es : List Event) :
    renderDatasets d =
      (specPlot d.temp_normal, specPlot d.temp_lowpwr,
       specPlot d.humi_normal, specPlot d.humi_lowpwr) ∧
    (∀ x, x ∈ (runSys es).data.temp_normal →
      ∃ p, p ∈ (runSys es).published ∧ x = p.1.temperature) := by
  refine ⟨rfl, ?_⟩
  intro x hx
  obtain ⟨hc, hq, h1, h2, h3, h4⟩ := inv_run es
  rw [h1] at hx
  have hx2 : x ∈ ((runSys es).drained.map fun p => p.1.temperature) :=
    List.mem_reverse.mp (List.mem_of_mem_take hx)
  obtain ⟨p, hp, hpx⟩ := List.mem_map.mp hx2
  refine ⟨p, ?_, hpx.symm⟩
  rw [← hq]
  exact List.mem_append_left _ hp

/-- C8, witness: in the run `c8Events` the buffered value 21337 is the
raw millidegree temperature of the published pair `(mA, mB)`. -/
theorem render_scaling_at_boundary_witness :
    ∃ p, p ∈ (runSys c8Events).published ∧
      Measurement.temperature mA = p.1.temperature :=
  (render_scaling_at_boundary (Data.new DATA_CAPACITY) c8Events).2
    mA.temperature (by decide)

/-- C9: the cleanup epilogue of `main` is best-effort: whatever the two
terminal calls return, both operations are attempted in order, no
error is escalated, and running the epilogue a second time in
sequence still escalates nothing — cleanup failure cannot prevent
the process from exiting. -/
theorem cleanup_best_effort (r1 r2 s1 s2 : Except TermError Unit) :
    (cleanupEpilogue r1 r2).1 = [TermOp.clear, TermOp.showCursor] ∧
    (cleanupEpilogue r1 r2).2 = none ∧
    (cleanupEpilogue s1 s2).2 = none :=
  ⟨rfl, rfl, rfl⟩

/-- C10: after any interleaving of producer cycles and consumer ticks
(each tick being a drain followed by `truncate`), the four Ring
Buffers all have equal length: each drained pair pushes exactly one
value into each series, and `truncate` caps all four at the same
capacity. -/
theorem buffers_equal_length (es : List Event) :
    (runSys es).data.temp_normal.length =
      (runSys es).data.temp_lowpwr.length ∧
    (runSys es).data.temp_lowpwr.length =
      (runSys es).data.humi_normal.length ∧
    (runSys es).data.humi_normal.length =
      (runSys es).data.humi_lowpwr.length := by
  obtain ⟨hc, hq, h1, h2, h3, h4⟩ := inv_run es
  rw [h1, h2, h3, h4]
  simp [List.length_take]

end Monitor
